import Mathlib

/-!
Verification of the session lifecycle engine of the `bankid` Go package
(`bankid.go`, `internal/config/config.go`) against its natural-language
specification.

The Go code is shallowly embedded: pure functions (`Requirements.validate`,
`validateTTBS`, `requestToJSON`, `Config.validate`) become Lean functions;
the per-order worker goroutine `handleAuthSignRequest` becomes a function
from its inputs, an environment describing the outcomes of external calls
(IP parsing, JSON marshalling, each `transmitRequest`), and the engine's
shared registry state, to the final registry state together with the trace
of observable actions (remote calls and response-callback invocations).
Go `len` on strings counts UTF-8 bytes, modelled by `goLen`.
-/

namespace Bankid

/-- Go `len` on a string: the UTF-8 byte length. -/
def goLen (s : String) : Nat := (s.data.map Char.utf8Size).sum

/-- Accumulate a decimal digit list into a natural number
(the magnitude computed by Go's `strconv` digit loop). -/
def digitsToNat (ds : List Char) : Nat :=
  ds.foldl (fun n c => n * 10 + (c.toNat - '0'.toNat)) 0

/-- `strconv.Atoi(s)` succeeds: an optional leading sign followed by a
non-empty run of ASCII digits whose value fits in Go's 64-bit `int`
(`ParseInt` range check; the sub-19-digit fast path can never overflow,
so a single magnitude bound per sign is faithful). -/
def atoiOk (s : String) : Bool :=
  match s.data with
  | [] => false
  | c :: cs =>
    let ds := if c = '-' ∨ c = '+' then cs else c :: cs
    !ds.isEmpty && ds.all Char.isDigit &&
      (if c = '-' then digitsToNat ds ≤ 2 ^ 63 else digitsToNat ds ≤ 2 ^ 63 - 1)

/-- The caller-supplied `Requirements` struct of `bankid.go`.
`certificatePolicies`/`issuerCN` and the two booleans are carried but never
inspected by `validate` (a `Todo` in the source). -/
structure Requirements where
  personalNumber : String := ""
  userNonVisibleData : String := ""
  cardReader : String := ""
  certificatePolicies : List String := []
  issuerCN : List String := []
  autoStartTokenRequired : Bool := false
  allowFingerprint : Bool := false
deriving DecidableEq

/-- `Requirements.validate` of `bankid.go` (lines 258-283): first failure
wins, `none` means the requirements are accepted. -/
def Requirements.validate (req : Requirements) : Option String :=
  if ¬ atoiOk req.personalNumber then
    some "parameter personalNumber malformed"
  else if 0 < goLen req.personalNumber ∧ goLen req.personalNumber ≠ 12 then
    some "parameter personalNumber must be 12 digits long"
  else if 200000 < goLen req.userNonVisibleData then
    some "parameter userNonVisibleData data too long"
  else if 0 < goLen req.cardReader ∧ req.cardReader ≠ "class1" ∧ req.cardReader ≠ "class2" then
    some "parameter cardReader set to invalid value"
  else
    none

/-- `validateTTBS` of `bankid.go` (lines 404-410). -/
def validateTTBS (ttbs : String) : Option String :=
  if 40000 < goLen ttbs then some "parameter userVisibleData data too long" else none

/-- The populated `authSignRequest` struct that `requestToJSON` marshals. -/
structure AuthSignRequest where
  requestID : String
  personalNumber : String
  endUserIP : String
  userVisibleData : String
  userNonVisibleData : String
  requirement : Option Requirements
deriving DecidableEq

/-- `requestToJSON` of `bankid.go` (lines 330-346), up to the external
`json.Marshal` call: returns the chosen operation name (`"auth"` or
`"sign"`) and the populated request struct. -/
def requestToJSON (endUserIP textToBeSigned requestID : String)
    (requirements : Option Requirements) : String × AuthSignRequest :=
  let req0 : AuthSignRequest :=
    { requestID := requestID
      personalNumber := ""
      endUserIP := endUserIP
      userVisibleData := textToBeSigned
      userNonVisibleData := ""
      requirement := requirements }
  match requirements with
  | none => ("auth", req0)
  | some r =>
    if r.userNonVisibleData ≠ "" then
      ("sign", { req0 with userNonVisibleData := r.userNonVisibleData
                           personalNumber := r.personalNumber })
    else
      ("auth", { req0 with personalNumber := r.personalNumber })

/-- The fields of the unmarshalled `serverResponse` struct read by the
worker (`autoStartToken`, `orderRef`, `status`, `hintCode`,
`completionData.user.name`). -/
structure ServerResponse where
  autoStartToken : String := ""
  orderRef : String := ""
  status : String := ""
  hintCode : String := ""
  completionUserName : String := ""
deriving DecidableEq

/-- Outcome of one `transmitRequest` call as the worker observes it.
`transportError` is a non-nil `err`; `httpError` is a non-200 status code
whose body `handleServerError` turns into the pair `(errCode, details)`
(an unparsable error body yields `errCode = "error"` there, absorbed into
the oracle); `unmarshalError` is a 200 response whose body
`json.Unmarshal` rejects; `success` is a 200 response parsed into a
`ServerResponse`. -/
inductive RemoteOutcome where
  | transportError (msg : String)
  | httpError (errCode details : String)
  | unmarshalError (msg : String)
  | success (sr : ServerResponse)
deriving DecidableEq

/-- One iteration of the polling loop: whether the cancellation channel
holds a value when the `select` runs, and the outcome of the single
remote call (`cancel` or `collect`) the iteration then makes. -/
structure PollStep where
  cancelRequested : Bool
  outcome : RemoteOutcome
deriving DecidableEq

/-- Environment for one worker run: outcomes of the external calls it
makes (`net.ParseIP`, `json.Marshal`, the initial `transmitRequest`, and
the finitely many observed polling iterations). -/
structure WorkerEnv where
  ipOk : Bool
  marshalErr : Option String
  startResult : RemoteOutcome
  steps : List PollStep
deriving DecidableEq

/-- Observable action of a worker: a remote call through
`transmitRequest` (identified by its operation name), or an invocation of
the response callback `funcOnResponse(requestID, status, message)`. The
`terminal` tag marks the callback invocations after which the Go worker
immediately returns (`failed`, `complete`, `cancelled`, server-error and
internal-error emissions); `sent` and pending-hint emissions are tagged
non-terminal. -/
inductive WAction where
  | remoteCall (op : String)
  | emit (requestID status message : String) (terminal : Bool)
deriving DecidableEq

/-- Is this action a terminal response-callback event? -/
def WAction.isTerminal : WAction → Bool
  | .emit _ _ _ t => t
  | .remoteCall _ => false

/-- Is this action a remote service call? -/
def WAction.isRemoteCall : WAction → Bool
  | .remoteCall _ => true
  | .emit _ _ _ _ => false

/-- The engine's shared registry: the key set of the `transQueues` map and
the `orderRefs` map as an association list. -/
structure ConnState where
  transQueues : List String
  orderRefs : List (String × String)
deriving DecidableEq

/-- Go map assignment on a key set: add the key if absent. -/
def insertKey (l : List String) (k : String) : List String :=
  if k ∈ l then l else k :: l

/-- Go map lookup on an association list. -/
def lookupAssoc (l : List (String × String)) (k : String) : Option String :=
  match l.find? (fun p => p.1 = k) with
  | some p => some p.2
  | none => none

/-- Go map assignment `m[k] = v`. -/
def insertAssoc (l : List (String × String)) (k v : String) : List (String × String) :=
  (k, v) :: l.filter (fun p => p.1 ≠ k)

/-- Go `delete(m, k)`. -/
def eraseAssoc (l : List (String × String)) (k : String) : List (String × String) :=
  l.filter (fun p => p.1 ≠ k)

/-- The `for sr.Status == "pending"` polling loop of
`handleAuthSignRequest` (`bankid.go` lines 179-229), one `PollStep` per
iteration. Each iteration first polls the cancellation channel
(non-blocking `select`): if a signal is present it issues one `cancel`
call (on HTTP 200 it deletes the `transQueues` entry and reports
`cancelled`; the response body is not parsed); otherwise it issues one
`collect` call and dispatches on the unmarshalled status. Running out of
steps models a worker still polling (partial trace, no terminal yet). -/
def pollLoop (requestID : String) (oldHint : String) (steps : List PollStep)
    (st : ConnState) : ConnState × List WAction :=
  match steps with
  | [] => (st, [])
  | step :: rest =>
    if step.cancelRequested then
      match step.outcome with
      | .transportError msg =>
        (st, [.remoteCall "cancel", .emit requestID "error" msg true])
      | .httpError er msg =>
        (st, [.remoteCall "cancel", .emit requestID er msg true])
      | _ => -- HTTP 200: body ignored on cancel
        ({ st with transQueues := st.transQueues.erase requestID },
         [.remoteCall "cancel", .emit requestID "cancelled" "" true])
    else
      match step.outcome with
      | .transportError msg =>
        (st, [.remoteCall "collect", .emit requestID "error" msg true])
      | .httpError er msg =>
        (st, [.remoteCall "collect", .emit requestID er msg true])
      | .unmarshalError msg =>
        (st, [.remoteCall "collect", .emit requestID "error" msg true])
      | .success sr =>
        if sr.status = "pending" then
          if sr.hintCode ≠ oldHint then
            let r := pollLoop requestID sr.hintCode rest st
            (r.1, .remoteCall "collect" :: .emit requestID sr.hintCode sr.status false :: r.2)
          else
            let r := pollLoop requestID oldHint rest st
            (r.1, .remoteCall "collect" :: r.2)
        else if sr.status = "failed" then
          (st, [.remoteCall "collect", .emit requestID sr.status sr.hintCode true])
        else if sr.status = "complete" then
          (st, [.remoteCall "collect", .emit requestID sr.status sr.completionUserName true])
        else
          (st, [.remoteCall "collect",
                .emit requestID "error" "unknown status in response from server" true])

/-- The worker goroutine `handleAuthSignRequest` (`bankid.go` lines
131-230): validation, the initial `auth`/`sign` call, the `sent`
emission, the `orderRefs` registration, then the polling loop. Returns
the final registry state and the trace of observable actions. -/
def handleAuthSignRequest (endUserIP textToBeSigned requestID : String)
    (requirements : Option Requirements) (env : WorkerEnv) (st : ConnState) :
    ConnState × List WAction :=
  if env.ipOk = false then
    (st, [.emit requestID "error" "invalid IP address" true])
  else
    match (if textToBeSigned ≠ "" then validateTTBS textToBeSigned else none) with
    | some msg => (st, [.emit requestID "error" msg true])
    | none =>
      match (match requirements with | some r => r.validate | none => none) with
      | some msg => (st, [.emit requestID "error" msg true])
      | none =>
        let rt := requestToJSON endUserIP textToBeSigned requestID requirements
        match env.marshalErr with
        | some msg => (st, [.emit requestID "error" msg true])
        | none =>
          match env.startResult with
          | .transportError msg =>
            (st, [.remoteCall rt.1, .emit requestID "error" msg true])
          | .httpError er msg =>
            (st, [.remoteCall rt.1, .emit requestID er msg true])
          | .unmarshalError msg =>
            (st, [.remoteCall rt.1, .emit requestID "error" msg true])
          | .success sr =>
            let st1 := { st with orderRefs := insertAssoc st.orderRefs requestID sr.orderRef }
            let r := pollLoop requestID "" env.steps st1
            (r.1, .remoteCall rt.1 :: .emit requestID "sent" sr.autoStartToken false :: r.2)

/-- Result of `SendRequest` (`bankid.go` lines 95-105): the returned
request id, the registry after `sc.transQueues[requestID] = ch`, and
whether a worker goroutine was spawned. -/
structure SendOutcome where
  requestID : String
  stateAfterRegister : ConnState
  workerSpawned : Bool
deriving DecidableEq

/-- `SendRequest`: generates an id when the caller passed `""`
(`generatedID` stands for `xid.New().String()`), registers the
cancellation channel in `transQueues`, and unconditionally spawns
`handleAuthSignRequest` as a goroutine — before any validation runs. -/
def SendRequest (st : ConnState) (endUserIP requestID textToBeSigned : String)
    (requirements : Option Requirements) (generatedID : String) : SendOutcome :=
  let rid := if requestID = "" then generatedID else requestID
  let _ := (endUserIP, textToBeSigned, requirements) -- passed through to the spawned worker
  { requestID := rid
    stateAfterRegister := { st with transQueues := insertKey st.transQueues rid }
    workerSpawned := true }

/-- Observable effect of the engine's synchronous entry points: a
response-callback invocation or a send on an order's cancellation
channel. -/
inductive CancelEffect where
  | emitted (requestID status message : String)
  | signalled (requestID : String)
deriving DecidableEq

/-- `CancelRequest` (`bankid.go` lines 108-115): unknown ids get an
internal-error callback; known ids are removed from `orderRefs` and their
worker's channel receives one value. -/
def CancelRequest (st : ConnState) (requestID : String) :
    ConnState × List CancelEffect :=
  match lookupAssoc st.orderRefs requestID with
  | none => (st, [.emitted requestID "error" "no session with provided ID"])
  | some _ =>
    ({ st with orderRefs := eraseAssoc st.orderRefs requestID },
     [.signalled requestID])

/-- `Connection.Close` (`bankid.go` lines 118-120): the body is a single
`Todo` comment — the method does nothing. -/
def Close (st : ConnState) : ConnState × List CancelEffect :=
  (st, [])

/-- The fields of `config.Config` consulted by `Config.validate` and by
the worker's poll sleep (`internal/config/config.go`); the certificate,
header and logging fields are opaque to the claims. -/
structure Config where
  serviceURL : String := ""
  pollDelay : Int := 0
deriving DecidableEq

/-- `minPollDelay` of `internal/config/config.go`. -/
def minPollDelay : Int := 2000

/-- Go's `string(2000)`: the rune with code point 2000, not the decimal
digits — reproduced faithfully in the error message below. -/
def runeOfMinPollDelay : String := String.mk [Char.ofNat 2000]

/-- `Config.validate` (`internal/config/config.go` lines 81-86): a
`pollDelay` below the floor is an error, it is not raised to the floor. -/
def Config.validate (c : Config) : Option String :=
  if c.pollDelay < minPollDelay then
    some ("pollDelay in config too low (needs to be at least " ++ runeOfMinPollDelay ++ " ms)")
  else
    none

/-- `GetConfig` after the external file read and `json.Unmarshal`
(modelled by the `parsed` argument): a parse failure or a `validate`
error makes loading fail; otherwise the parsed config is returned
unchanged. -/
def GetConfig (parsed : Option Config) : Except String Config :=
  match parsed with
  | none => Except.error "could not read or unmarshal config file"
  | some c =>
    match c.validate with
    | some msg => Except.error msg
    | none => Except.ok c

/-- The poll interval the worker actually sleeps
(`time.Sleep(time.Duration(sc.cfg.PollDelay) * time.Millisecond)` in
`bankid.go` line 217): the configured value, used as-is. -/
def effectivePollDelay (c : Config) : Int := c.pollDelay

/-- The fields of a `Connection` built by `New` that the claims observe. -/
structure Connection where
  version : String
  transQueues : List String
  orderRefs : List (String × String)
deriving DecidableEq

/-- Outcomes of the external steps of `New`: whether a callback was
supplied, and whether config loading and HTTP-client construction
succeeded. -/
structure NewArgs where
  callbackProvided : Bool
  cfgOk : Bool
  clientOk : Bool
deriving DecidableEq

/-- `New` (`bankid.go` lines 67-90) as a transformer of the package-level
variable `connection` (`bankid.go` line 31): given the current value of
that variable and the outcomes of the external steps, it returns the
variable's value after the call — the source never assigns `connection`,
so it is returned unchanged on every path — together with the call's
result. On success a fresh `Connection` with newly made empty maps is
returned. -/
def New (pkgConn : Option Connection) (args : NewArgs) :
    Option Connection × Except String Connection :=
  match pkgConn with
  | some c => (pkgConn, Except.ok c)
  | none =>
    if args.callbackProvided = false then
      (pkgConn, Except.error "no call back function provided")
    else if args.cfgOk = false then
      (pkgConn, Except.error "could not get create configuration")
    else if args.clientOk = false then
      (pkgConn, Except.error "could not create an HTTP client")
    else
      (pkgConn, Except.ok { version := "0.1", transQueues := [], orderRefs := [] })

/-- The package-level `connection` variable after a sequence of `New`
calls, starting from its zero value `nil`. -/
def connectionAfter (calls : List NewArgs) : Option Connection :=
  calls.foldl (fun pkg a => (New pkg a).1) none

/-- A trace is well terminated: the first terminal callback, if any, is
its last element — hence at most one terminal event and no action of any
kind (in particular no remote call) after a terminal event. -/
def terminalLast : List WAction → Bool
  | [] => true
  | a :: rest => if a.isTerminal then rest.isEmpty else terminalLast rest

/-
=========================================================================
Theorems
=========================================================================
-/

lemma atoiOk_goLen_pos (s : String) (h : atoiOk s = true) : 0 < goLen s := by
  unfold goLen
  unfold atoiOk at h
  cases hs : s.data with
  | nil => rw [hs] at h; exact absurd h (by decide)
  | cons c cs =>
    simp only [List.map_cons, List.sum_cons]
    have := Char.utf8Size_pos c
    omega

lemma goLen_empty : goLen "" = 0 := rfl

lemma mem_insertKey (l : List String) (k : String) : k ∈ insertKey l k := by
  unfold insertKey
  split
  · assumption
  · exact List.mem_cons_self _ _

/-- C4: the claim says `personalNumber` is accepted iff empty or exactly
12 ASCII digits, with the empty string passing. On the code the empty
string is rejected: `strconv.Atoi("")` fails, so the first check fires
and `validate` returns the format-specific message. -/
theorem personalNumber_empty_rejected :
    Requirements.validate { personalNumber := "" } =
      some "parameter personalNumber malformed" := by decide

/-- C4 (amended): with the other validated fields empty, `validate`
accepts `personalNumber` iff it parses under Go's `strconv.Atoi`
(optionally signed non-empty digit run in 64-bit `int` range) and its
length is exactly 12; consequently the empty string fails with the
format-specific message, `"12345"` fails with the length-specific
message, `"abcdefabcdef"` fails with the format-specific message, and
`"121212121212"` passes. -/
theorem personalNumber_validation :
    (∀ req : Requirements, req.userNonVisibleData = "" → req.cardReader = "" →
      (req.validate = none ↔
        atoiOk req.personalNumber = true ∧ goLen req.personalNumber = 12)) ∧
    Requirements.validate { personalNumber := "12345" } =
      some "parameter personalNumber must be 12 digits long" ∧
    Requirements.validate { personalNumber := "abcdefabcdef" } =
      some "parameter personalNumber malformed" ∧
    Requirements.validate { personalNumber := "121212121212" } = none ∧
    Requirements.validate { personalNumber := "" } =
      some "parameter personalNumber malformed" := by
  refine ⟨?_, by decide, by decide, by decide, by decide⟩
  intro req hnv hcr
  unfold Requirements.validate
  cases hA : atoiOk req.personalNumber with
  | false => simp [hA]
  | true =>
    have hpos := atoiOk_goLen_pos _ hA
    by_cases h12 : goLen req.personalNumber = 12
    · simp [hA, h12, hnv, hcr, goLen_empty]
    · simp [hA, h12, hpos]

/-- C4 witness: the characterization applied to the accepted concrete
requirement with `personalNumber = "121212121212"`. -/
theorem personalNumber_validation_witness :
    Requirements.validate { personalNumber := "121212121212" } = none :=
  (personalNumber_validation.1 { personalNumber := "121212121212" } rfl rfl).mpr
    (by constructor <;> decide)

/-- C5: `CancelRequest` on an id absent from the `orderRefs` registry
emits exactly one internal-error ("no session with provided ID") event
and changes nothing; on a registered id it removes the `orderRefs` entry
and sends exactly one value on that order's cancellation channel,
emitting nothing. -/
theorem cancelRequest_spec (st : ConnState) (requestID : String) :
    (lookupAssoc st.orderRefs requestID = none →
      CancelRequest st requestID =
        (st, [CancelEffect.emitted requestID "error" "no session with provided ID"])) ∧
    (∀ r, lookupAssoc st.orderRefs requestID = some r →
      CancelRequest st requestID =
        ({ st with orderRefs := eraseAssoc st.orderRefs requestID },
         [CancelEffect.signalled requestID])) := by
  constructor
  · intro h
    unfold CancelRequest
    rw [h]
  · intro r h
    unfold CancelRequest
    rw [h]

/-- C5 witness: both branches of the cancellation contract at concrete
registry states. -/
theorem cancelRequest_spec_witness :
    CancelRequest (ConnState.mk [] []) "id1" =
      (ConnState.mk [] [],
       [CancelEffect.emitted "id1" "error" "no session with provided ID"]) ∧
    CancelRequest (ConnState.mk ["id2"] [("id2", "ref")]) "id2" =
      (ConnState.mk ["id2"] [], [CancelEffect.signalled "id2"]) := by
  constructor
  · exact (cancelRequest_spec (ConnState.mk [] []) "id1").1 rfl
  · exact (cancelRequest_spec (ConnState.mk ["id2"] [("id2", "ref")]) "id2").2 "ref" rfl

/-- C9: the claim says `Close` signals cancellation to every registered
order and releases the transport sender. At a state with one registered
order, `Close` signals nothing (its body is an unimplemented `Todo`). -/
theorem close_counterexample :
    ¬ (∀ p ∈ (ConnState.mk ["a"] [("a", "ref")]).orderRefs,
        CancelEffect.signalled p.1 ∈ (Close (ConnState.mk ["a"] [("a", "ref")])).2) := by
  decide

/-- C9 (amended): `Connection.Close` is a no-op — it signals no order,
emits nothing, and leaves the registry untouched. -/
theorem close_noop (st : ConnState) : Close st = (st, []) := rfl

/-- C7: the code evaluated against the claim. `requestToJSON` chooses the
operation solely from `requirements.UserNonVisibleData`; a submission
with a signature payload (`textToBeSigned`) but no requirements is sent
as `"auth"`, contradicting the claim and `SendRequest`'s own doc comment
("If textToBeSigned is provided it is a sign request"). -/
theorem requestToJSON_ignores_ttbs :
    (∀ endUserIP ttbs rid, (requestToJSON endUserIP ttbs rid none).1 = "auth") ∧
    (requestToJSON "192.168.0.1" "Hello" "id1" none).1 = "auth" ∧
    (requestToJSON "192.168.0.1" "Hello" "id1" none).2.userVisibleData = "Hello" := by
  exact ⟨fun _ _ _ => rfl, rfl, rfl⟩

/-- C8: the claim says a configuration with `pollDelay` below the
2000 ms floor still loads, with the floor used as the effective
interval. At `pollDelay = 1000` loading fails with the validation error
(whose text contains Go's `string(2000)`, the rune U+07D0), and the
interval the engine would use is the configured value, not 2000. -/
theorem config_floor_counterexample :
    GetConfig (some (Config.mk "" 1000)) =
      Except.error ("pollDelay in config too low (needs to be at least "
        ++ runeOfMinPollDelay ++ " ms)") ∧
    effectivePollDelay (Config.mk "" 1000) = 1000 := ⟨rfl, rfl⟩

/-- C8 (amended): a `pollDelay` below 2000 is rejected — `Config.validate`
returns an error and loading fails; a `pollDelay` of at least 2000 loads
successfully and is used as the effective poll interval unchanged
(no raising to a floor happens anywhere). -/
theorem config_validate_spec (c : Config) :
    (c.pollDelay < 2000 →
      GetConfig (some c) =
        Except.error ("pollDelay in config too low (needs to be at least "
          ++ runeOfMinPollDelay ++ " ms)")) ∧
    (2000 ≤ c.pollDelay →
      GetConfig (some c) = Except.ok c ∧ effectivePollDelay c = c.pollDelay) := by
  constructor
  · intro h
    simp [GetConfig, Config.validate, minPollDelay, h]
  · intro h
    simp [GetConfig, Config.validate, minPollDelay, effectivePollDelay, Int.not_lt.mpr h]

/-- C8 witness: the amended behavior at `pollDelay = 1500` (rejected) and
`pollDelay = 2500` (accepted, used as-is). -/
theorem config_validate_spec_witness :
    GetConfig (some (Config.mk "" 1500)) =
      Except.error ("pollDelay in config too low (needs to be at least "
        ++ runeOfMinPollDelay ++ " ms)") ∧
    GetConfig (some (Config.mk "" 2500)) = Except.ok (Config.mk "" 2500) ∧
    effectivePollDelay (Config.mk "" 2500) = 2500 := by
  refine ⟨(config_validate_spec (Config.mk "" 1500)).1 (by decide), ?_⟩
  exact (config_validate_spec (Config.mk "" 2500)).2 (by decide)

lemma new_fst (pkg : Option Connection) (a : NewArgs) : (New pkg a).1 = pkg := by
  cases pkg with
  | some c => rfl
  | none =>
    unfold New
    repeat' split
    all_goals rfl

lemma connectionAfter_none (calls : List NewArgs) : connectionAfter calls = none := by
  induction calls with
  | nil => rfl
  | cons a rest ih =>
    unfold connectionAfter at ih ⊢
    rw [List.foldl_cons, new_fst]
    exact ih

/-- C10: the package-level `connection` variable is never assigned by
`New`, so after any sequence of calls it still holds `nil`, the reuse
branch never fires, and every successful call returns a freshly
constructed `Connection` whose `transQueues` and `orderRefs` maps are
empty. -/
theorem new_fresh (calls : List NewArgs) (args : NewArgs) :
    connectionAfter calls = none ∧
    (∀ c, (New (connectionAfter calls) args).2 = Except.ok c →
      c.transQueues = [] ∧ c.orderRefs = []) := by
  have hnone := connectionAfter_none calls
  refine ⟨hnone, ?_⟩
  intro c h
  rw [hnone] at h
  obtain ⟨cb, cfg, cl⟩ := args
  cases cb <;> cases cfg <;> cases cl <;> simp [New] at h
  subst h
  exact ⟨rfl, rfl⟩

/-- C10 witness: a successful first call returns the empty maps. -/
theorem new_fresh_witness :
    (Connection.mk "0.1" [] []).transQueues = [] ∧
    (Connection.mk "0.1" [] []).orderRefs = [] :=
  (new_fresh [] (NewArgs.mk true true true)).2 (Connection.mk "0.1" [] []) rfl

lemma goLen_replicate (n : Nat) (c : Char) :
    goLen (String.mk (List.replicate n c)) = n * c.utf8Size := by
  unfold goLen
  show ((List.replicate n c).map Char.utf8Size).sum = n * c.utf8Size
  rw [List.map_replicate, List.sum_replicate, smul_eq_mul]

/-- C2: the claim says that on validation failure no worker is spawned
and no identifier is registered in the shared maps. For a `SendRequest`
whose `textToBeSigned` is 40001 characters (which fails `validateTTBS`),
the id is nevertheless registered in `transQueues` and the worker
goroutine is spawned — `SendRequest` does both unconditionally before
any validation, which runs inside the worker. -/
theorem sendRequest_registers_counterexample :
    validateTTBS (String.mk (List.replicate 40001 'a')) =
      some "parameter userVisibleData data too long" ∧
    (SendRequest (ConnState.mk [] []) "1.2.3.4" "req1"
        (String.mk (List.replicate 40001 'a')) none "gen").workerSpawned = true ∧
    "req1" ∈ (SendRequest (ConnState.mk [] []) "1.2.3.4" "req1"
        (String.mk (List.replicate 40001 'a')) none "gen").stateAfterRegister.transQueues := by
  refine ⟨?_, rfl, ?_⟩
  · have h1 : ('a').utf8Size = 1 := by decide
    simp only [validateTTBS, goLen_replicate, h1]
    norm_num
  · exact mem_insertKey [] "req1"

/-- C2 (amended): validation failures are detected by the spawned worker,
not by `SendRequest`: on an unparseable end-user IP, an oversized
`textToBeSigned`, or requirements failing `validate`, the worker emits
exactly one failure event carrying the validation message and stops —
making no remote call and adding nothing to `orderRefs`, with the
registry state unchanged; `SendRequest` itself, for every input,
registers the id in `transQueues` and spawns the worker before
validation. -/
theorem validation_failure_behavior :
    (∀ endUserIP ttbs rid reqs env st, env.ipOk = false →
      handleAuthSignRequest endUserIP ttbs rid reqs env st =
        (st, [WAction.emit rid "error" "invalid IP address" true])) ∧
    (∀ endUserIP ttbs rid reqs env st msg, env.ipOk = true → ttbs ≠ "" →
      validateTTBS ttbs = some msg →
      handleAuthSignRequest endUserIP ttbs rid reqs env st =
        (st, [WAction.emit rid "error" msg true])) ∧
    (∀ endUserIP ttbs rid r env st msg, env.ipOk = true →
      (if ttbs ≠ "" then validateTTBS ttbs else none) = none →
      Requirements.validate r = some msg →
      handleAuthSignRequest endUserIP ttbs rid (some r) env st =
        (st, [WAction.emit rid "error" msg true])) ∧
    (∀ st endUserIP rid ttbs reqs gen,
      (SendRequest st endUserIP rid ttbs reqs gen).workerSpawned = true ∧
      (SendRequest st endUserIP rid ttbs reqs gen).requestID ∈
        (SendRequest st endUserIP rid ttbs reqs gen).stateAfterRegister.transQueues) := by
  refine ⟨?_, ?_, ?_, ?_⟩
  · intro endUserIP ttbs rid reqs env st h
    simp [handleAuthSignRequest, h]
  · intro endUserIP ttbs rid reqs env st msg hip hne hv
    simp [handleAuthSignRequest, hip, hne, hv]
  · intro endUserIP ttbs rid r env st msg hip httbs hv
    simp only [handleAuthSignRequest, hip]
    rw [if_neg (by simp)]
    rw [httbs, hv]
  · intro st endUserIP rid ttbs reqs gen
    exact ⟨rfl, mem_insertKey _ _⟩

/-- C2 witness: the amended behavior at a concrete invalid-IP submission:
the worker emits the failure event and nothing else, leaving the empty
registry untouched. -/
theorem validation_failure_behavior_witness :
    handleAuthSignRequest "not-an-ip" "" "id1" none
        (WorkerEnv.mk false none (RemoteOutcome.transportError "t") []) (ConnState.mk [] []) =
      (ConnState.mk [] [], [WAction.emit "id1" "error" "invalid IP address" true]) :=
  validation_failure_behavior.1 "not-an-ip" "" "id1" none
    (WorkerEnv.mk false none (RemoteOutcome.transportError "t") []) (ConnState.mk [] []) rfl

/-- C6: while Pending, a collect returning status `pending` with the
hint equal to the last-seen hint produces no callback event (only the
`collect` call appears in the trace, and the stored hint is kept); a
changed hint produces exactly one `(hint, "pending")` event and the
stored last-seen hint becomes the new hint for the rest of the loop. -/
theorem pending_hint_dedup (rid oldHint : String) (rest : List PollStep)
    (st : ConnState) (sr : ServerResponse) (hp : sr.status = "pending") :
    (sr.hintCode = oldHint →
      pollLoop rid oldHint (PollStep.mk false (RemoteOutcome.success sr) :: rest) st =
        ((pollLoop rid oldHint rest st).1,
         WAction.remoteCall "collect" :: (pollLoop rid oldHint rest st).2)) ∧
    (sr.hintCode ≠ oldHint →
      pollLoop rid oldHint (PollStep.mk false (RemoteOutcome.success sr) :: rest) st =
        ((pollLoop rid sr.hintCode rest st).1,
         WAction.remoteCall "collect" ::
           WAction.emit rid sr.hintCode "pending" false ::
           (pollLoop rid sr.hintCode rest st).2)) := by
  obtain ⟨atk, oref, stt, hc, nm⟩ := sr
  simp only at hp
  subst hp
  constructor
  · intro hh
    simp only at hh
    subst hh
    simp [pollLoop]
  · intro hh
    simp only at hh
    simp [pollLoop, hh]

/-- C6 witness: a concrete pending collect with unchanged hint `"x"`
contributes only the `collect` call, and one with hint changed to `"y"`
contributes the call plus exactly one `("y", "pending")` event. -/
theorem pending_hint_dedup_witness :
    pollLoop "id1" "x" [PollStep.mk false
        (RemoteOutcome.success (ServerResponse.mk "" "" "pending" "x" ""))] (ConnState.mk [] []) =
      (ConnState.mk [] [], [WAction.remoteCall "collect"]) ∧
    pollLoop "id1" "x" [PollStep.mk false
        (RemoteOutcome.success (ServerResponse.mk "" "" "pending" "y" ""))] (ConnState.mk [] []) =
      (ConnState.mk [] [],
       [WAction.remoteCall "collect", WAction.emit "id1" "y" "pending" false]) := by
  constructor
  · exact (pending_hint_dedup "id1" "x" [] (ConnState.mk [] [])
      (ServerResponse.mk "" "" "pending" "x" "") rfl).1 rfl
  · exact (pending_hint_dedup "id1" "x" [] (ConnState.mk [] [])
      (ServerResponse.mk "" "" "pending" "y" "") rfl).2 (by decide)

/-- C3: the claim says every terminal order has its `orderRefs` and
`transQueues` entries removed by the worker. In a run that starts
successfully (orderRef `"ref1"`) and then collects `complete`, the trace
contains exactly one terminal event, yet afterwards the id is still in
`transQueues` and still mapped in `orderRefs` — the complete path (like
the failed and error paths) removes nothing. -/
theorem registry_dangles_after_complete :
    ((handleAuthSignRequest "1.2.3.4" "" "id1" none
        (WorkerEnv.mk true none
          (RemoteOutcome.success (ServerResponse.mk "tok" "ref1" "" "" ""))
          [PollStep.mk false
            (RemoteOutcome.success (ServerResponse.mk "" "" "complete" "" "Sven Svensson"))])
        (ConnState.mk ["id1"] [])).2.countP WAction.isTerminal = 1) ∧
    "id1" ∈ (handleAuthSignRequest "1.2.3.4" "" "id1" none
        (WorkerEnv.mk true none
          (RemoteOutcome.success (ServerResponse.mk "tok" "ref1" "" "" ""))
          [PollStep.mk false
            (RemoteOutcome.success (ServerResponse.mk "" "" "complete" "" "Sven Svensson"))])
        (ConnState.mk ["id1"] [])).1.transQueues ∧
    lookupAssoc (handleAuthSignRequest "1.2.3.4" "" "id1" none
        (WorkerEnv.mk true none
          (RemoteOutcome.success (ServerResponse.mk "tok" "ref1" "" "" ""))
          [PollStep.mk false
            (RemoteOutcome.success (ServerResponse.mk "" "" "complete" "" "Sven Svensson"))])
        (ConnState.mk ["id1"] [])).1.orderRefs "id1" = some "ref1" := by
  decide

lemma pollLoop_orderRefs_eq (rid : String) (steps : List PollStep) :
    ∀ hint st, ((pollLoop rid hint steps st).1).orderRefs = st.orderRefs := by
  induction steps with
  | nil => intro hint st; rfl
  | cons step rest ih =>
    intro hint st
    obtain ⟨cr, out⟩ := step
    cases cr
    · cases out with
      | success sr =>
        by_cases hp : sr.status = "pending"
        · by_cases hh : sr.hintCode = hint
          · simp [pollLoop, hp, hh, ih]
          · simp [pollLoop, hp, hh, ih]
        · by_cases hf : sr.status = "failed"
          · simp [pollLoop, hp, hf]
          · by_cases hc : sr.status = "complete"
            · simp [pollLoop, hp, hf, hc]
            · simp [pollLoop, hp, hf, hc]
      | transportError msg => simp [pollLoop]
      | httpError er msg => simp [pollLoop]
      | unmarshalError msg => simp [pollLoop]
    · cases out <;> simp [pollLoop]

lemma pollLoop_transQueues_cases (rid : String) (steps : List PollStep) :
    ∀ hint st, (pollLoop rid hint steps st).1.transQueues = st.transQueues ∨
      (pollLoop rid hint steps st).1.transQueues = st.transQueues.erase rid := by
  induction steps with
  | nil => intro hint st; exact Or.inl rfl
  | cons step rest ih =>
    intro hint st
    obtain ⟨cr, out⟩ := step
    cases cr
    · cases out with
      | success sr =>
        by_cases hp : sr.status = "pending"
        · by_cases hh : sr.hintCode = hint
          · simpa [pollLoop, hp, hh] using ih hint st
          · simpa [pollLoop, hp, hh] using ih sr.hintCode st
        · by_cases hf : sr.status = "failed"
          · simp [pollLoop, hp, hf]
          · by_cases hc : sr.status = "complete"
            · simp [pollLoop, hp, hf, hc]
            · simp [pollLoop, hp, hf, hc]
      | transportError msg => simp [pollLoop]
      | httpError er msg => simp [pollLoop]
      | unmarshalError msg => simp [pollLoop]
    · cases out <;> simp [pollLoop]

/-- C3 (amended): the polling loop never modifies `orderRefs` (that
entry is removed only by `CancelRequest`), and the worker's only
`orderRefs` mutation is the single map assignment after a successful
start; of all the loop's paths only an HTTP-200 remote cancel modifies
`transQueues` (erasing this order's entry), while every other terminal
path — `failed`, `complete`, unknown status, and the transport, HTTP and
unmarshal error paths of both `collect` and `cancel` — terminates with
the registry state exactly unchanged (exhaustive per-path equations
below), and a pending collect threads the state through untouched; hence
a worker's final `transQueues` is always either the initial one or the
initial one with this order's entry erased, leaving both entries
dangling after every non-cancel terminal event. -/
theorem worker_cleanup_characterization :
    (∀ rid hint steps st, ((pollLoop rid hint steps st).1).orderRefs = st.orderRefs) ∧
    (∀ rid hint rest st sr,
      pollLoop rid hint (PollStep.mk true (RemoteOutcome.success sr) :: rest) st =
        ({ st with transQueues := st.transQueues.erase rid },
         [WAction.remoteCall "cancel", WAction.emit rid "cancelled" "" true])) ∧
    (∀ rid hint rest st msg,
      pollLoop rid hint (PollStep.mk true (RemoteOutcome.unmarshalError msg) :: rest) st =
        ({ st with transQueues := st.transQueues.erase rid },
         [WAction.remoteCall "cancel", WAction.emit rid "cancelled" "" true])) ∧
    (∀ rid hint rest st msg,
      pollLoop rid hint (PollStep.mk true (RemoteOutcome.transportError msg) :: rest) st =
        (st, [WAction.remoteCall "cancel", WAction.emit rid "error" msg true])) ∧
    (∀ rid hint rest st er msg,
      pollLoop rid hint (PollStep.mk true (RemoteOutcome.httpError er msg) :: rest) st =
        (st, [WAction.remoteCall "cancel", WAction.emit rid er msg true])) ∧
    (∀ rid hint rest st msg,
      pollLoop rid hint (PollStep.mk false (RemoteOutcome.transportError msg) :: rest) st =
        (st, [WAction.remoteCall "collect", WAction.emit rid "error" msg true])) ∧
    (∀ rid hint rest st er msg,
      pollLoop rid hint (PollStep.mk false (RemoteOutcome.httpError er msg) :: rest) st =
        (st, [WAction.remoteCall "collect", WAction.emit rid er msg true])) ∧
    (∀ rid hint rest st msg,
      pollLoop rid hint (PollStep.mk false (RemoteOutcome.unmarshalError msg) :: rest) st =
        (st, [WAction.remoteCall "collect", WAction.emit rid "error" msg true])) ∧
    (∀ rid hint rest st sr, sr.status = "failed" →
      pollLoop rid hint (PollStep.mk false (RemoteOutcome.success sr) :: rest) st =
        (st, [WAction.remoteCall "collect",
              WAction.emit rid sr.status sr.hintCode true])) ∧
    (∀ rid hint rest st sr, sr.status = "complete" →
      pollLoop rid hint (PollStep.mk false (RemoteOutcome.success sr) :: rest) st =
        (st, [WAction.remoteCall "collect",
              WAction.emit rid sr.status sr.completionUserName true])) ∧
    (∀ rid hint rest st sr, sr.status ≠ "pending" → sr.status ≠ "failed" →
      sr.status ≠ "complete" →
      pollLoop rid hint (PollStep.mk false (RemoteOutcome.success sr) :: rest) st =
        (st, [WAction.remoteCall "collect",
              WAction.emit rid "error" "unknown status in response from server" true])) ∧
    (∀ rid hint rest st sr, sr.status = "pending" →
      (pollLoop rid hint (PollStep.mk false (RemoteOutcome.success sr) :: rest) st).1 =
        (pollLoop rid (if sr.hintCode = hint then hint else sr.hintCode) rest st).1) ∧
    (∀ rid hint steps st,
      (pollLoop rid hint steps st).1.transQueues = st.transQueues ∨
      (pollLoop rid hint steps st).1.transQueues = st.transQueues.erase rid) ∧
    (∀ endUserIP ttbs rid reqs env st,
      ((handleAuthSignRequest endUserIP ttbs rid reqs env st).1.orderRefs = st.orderRefs ∨
       ∃ oref, (handleAuthSignRequest endUserIP ttbs rid reqs env st).1.orderRefs =
         insertAssoc st.orderRefs rid oref)) ∧
    (∀ endUserIP ttbs rid reqs env st,
      (handleAuthSignRequest endUserIP ttbs rid reqs env st).1.transQueues =
        st.transQueues ∨
      (handleAuthSignRequest endUserIP ttbs rid reqs env st).1.transQueues =
        st.transQueues.erase rid) := by
  refine ⟨fun rid _ steps => pollLoop_orderRefs_eq rid steps _, ?_, ?_, ?_, ?_, ?_, ?_, ?_,
    ?_, ?_, ?_, ?_, fun rid _ steps => pollLoop_transQueues_cases rid steps _, ?_, ?_⟩
  · intro rid hint rest st sr
    simp [pollLoop]
  · intro rid hint rest st msg
    simp [pollLoop]
  · intro rid hint rest st msg
    simp [pollLoop]
  · intro rid hint rest st er msg
    simp [pollLoop]
  · intro rid hint rest st msg
    simp [pollLoop]
  · intro rid hint rest st er msg
    simp [pollLoop]
  · intro rid hint rest st msg
    simp [pollLoop]
  · intro rid hint rest st sr hf
    simp [pollLoop, hf]
  · intro rid hint rest st sr hc
    simp [pollLoop, hc]
  · intro rid hint rest st sr h1 h2 h3
    simp [pollLoop, h1, h2, h3]
  · intro rid hint rest st sr hp
    by_cases hh : sr.hintCode = hint
    · simp [pollLoop, hp, hh]
    · simp [pollLoop, hp, hh]
  · intro endUserIP ttbs rid reqs env st
    unfold handleAuthSignRequest
    split
    · exact Or.inl rfl
    · split
      · exact Or.inl rfl
      · split
        · exact Or.inl rfl
        · split
          · exact Or.inl rfl
          · split
            · exact Or.inl rfl
            · exact Or.inl rfl
            · exact Or.inl rfl
            · exact Or.inr ⟨_, pollLoop_orderRefs_eq rid env.steps _ _⟩
  · intro endUserIP ttbs rid reqs env st
    unfold handleAuthSignRequest
    split
    · exact Or.inl rfl
    · split
      · exact Or.inl rfl
      · split
        · exact Or.inl rfl
        · split
          · exact Or.inl rfl
          · split
            · exact Or.inl rfl
            · exact Or.inl rfl
            · exact Or.inl rfl
            · exact pollLoop_transQueues_cases rid env.steps "" _

/-- C3 witness for the amended characterization: concrete one-step runs
for a successful cancel (entry erased), a complete collect, a failed
collect and a transport-error collect (registry unchanged in the last
three). -/
theorem worker_cleanup_characterization_witness :
    pollLoop "q1" "" [PollStep.mk true
        (RemoteOutcome.success (ServerResponse.mk "" "" "" "" ""))] (ConnState.mk ["q1"] []) =
      (ConnState.mk [] [],
       [WAction.remoteCall "cancel", WAction.emit "q1" "cancelled" "" true]) ∧
    pollLoop "q1" "" [PollStep.mk false
        (RemoteOutcome.success (ServerResponse.mk "" "" "complete" "" "N"))] (ConnState.mk ["q1"] []) =
      (ConnState.mk ["q1"] [],
       [WAction.remoteCall "collect", WAction.emit "q1" "complete" "N" true]) ∧
    pollLoop "q1" "" [PollStep.mk false
        (RemoteOutcome.success (ServerResponse.mk "" "" "failed" "userCancel" ""))] (ConnState.mk ["q1"] []) =
      (ConnState.mk ["q1"] [],
       [WAction.remoteCall "collect", WAction.emit "q1" "failed" "userCancel" true]) ∧
    pollLoop "q1" "" [PollStep.mk false
        (RemoteOutcome.transportError "conn reset")] (ConnState.mk ["q1"] []) =
      (ConnState.mk ["q1"] [],
       [WAction.remoteCall "collect", WAction.emit "q1" "error" "conn reset" true]) := by
  obtain ⟨-, h2, -, -, -, h5, -, -, h8, h9, -⟩ := worker_cleanup_characterization
  refine ⟨?_, ?_, ?_, ?_⟩
  · have h := h2 "q1" "" ([] : List PollStep) (ConnState.mk ["q1"] [])
      (ServerResponse.mk "" "" "" "" "")
    simpa using h
  · have h := h9 "q1" "" ([] : List PollStep) (ConnState.mk ["q1"] [])
      (ServerResponse.mk "" "" "complete" "" "N") rfl
    simpa using h
  · have h := h8 "q1" "" ([] : List PollStep) (ConnState.mk ["q1"] [])
      (ServerResponse.mk "" "" "failed" "userCancel" "") rfl
    simpa using h
  · have h := h5 "q1" "" ([] : List PollStep) (ConnState.mk ["q1"] []) "conn reset"
    simpa using h

lemma terminalLast_pollLoop (steps : List PollStep) :
    ∀ rid hint st, terminalLast (pollLoop rid hint steps st).2 = true := by
  induction steps with
  | nil => intro rid hint st; rfl
  | cons step rest ih =>
    intro rid hint st
    obtain ⟨cr, out⟩ := step
    cases cr
    · cases out with
      | success sr =>
        by_cases hp : sr.status = "pending"
        · by_cases hh : sr.hintCode = hint
          · simp [pollLoop, hp, hh, terminalLast, WAction.isTerminal, ih]
          · simp [pollLoop, hp, hh, terminalLast, WAction.isTerminal, ih]
        · by_cases hf : sr.status = "failed"
          · simp [pollLoop, hp, hf, terminalLast, WAction.isTerminal]
          · by_cases hc : sr.status = "complete"
            · simp [pollLoop, hp, hf, hc, terminalLast, WAction.isTerminal]
            · simp [pollLoop, hp, hf, hc, terminalLast, WAction.isTerminal]
      | transportError msg => simp [pollLoop, terminalLast, WAction.isTerminal]
      | httpError er msg => simp [pollLoop, terminalLast, WAction.isTerminal]
      | unmarshalError msg => simp [pollLoop, terminalLast, WAction.isTerminal]
    · cases out <;> simp [pollLoop, terminalLast, WAction.isTerminal]

lemma terminalLast_worker (endUserIP ttbs rid : String) (reqs : Option Requirements)
    (env : WorkerEnv) (st : ConnState) :
    terminalLast (handleAuthSignRequest endUserIP ttbs rid reqs env st).2 = true := by
  unfold handleAuthSignRequest
  split
  · rfl
  · split
    · rfl
    · split
      · rfl
      · split
        · rfl
        · split
          · rfl
          · rfl
          · rfl
          · simp [terminalLast, WAction.isTerminal, terminalLast_pollLoop]

lemma countP_terminal_of_terminalLast (l : List WAction)
    (h : terminalLast l = true) : l.countP WAction.isTerminal ≤ 1 := by
  induction l with
  | nil => simp
  | cons a rest ih =>
    unfold terminalLast at h
    by_cases ha : a.isTerminal = true
    · rw [if_pos ha] at h
      cases rest with
      | nil => simp [List.countP_cons, ha]
      | cons b l2 => simp at h
    · rw [if_neg ha] at h
      have := ih h
      simp only [Bool.not_eq_true] at ha
      simp [List.countP_cons, ha]
      omega

lemma nil_after_terminal (l1 : List WAction) :
    ∀ (a : WAction) (l2 : List WAction),
      terminalLast (l1 ++ a :: l2) = true → a.isTerminal = true → l2 = [] := by
  induction l1 with
  | nil =>
    intro a l2 h ha
    rw [List.nil_append] at h
    simp [terminalLast, ha] at h
    exact h
  | cons b l1 ih =>
    intro a l2 h ha
    rw [List.cons_append] at h
    by_cases hb : b.isTerminal = true
    · simp [terminalLast, hb] at h
    · simp only [terminalLast, hb, if_false, Bool.false_eq_true, ite_false] at h
      exact ih a l2 h ha

/-- C1: for every worker run (any inputs, any outcomes of the external
calls), the trace of response-callback events contains at most one
terminal event (failed, complete, cancelled, internal-error, or a
server-reported error), and after a terminal event no further remote
call — neither `collect` nor `cancel` through `transmitRequest` —
appears in the trace for that order. -/
theorem worker_single_terminal (endUserIP ttbs rid : String) (reqs : Option Requirements)
    (env : WorkerEnv) (st : ConnState) :
    (handleAuthSignRequest endUserIP ttbs rid reqs env st).2.countP WAction.isTerminal ≤ 1 ∧
    (∀ l1 a l2, (handleAuthSignRequest endUserIP ttbs rid reqs env st).2 = l1 ++ a :: l2 →
      a.isTerminal = true → l2.countP WAction.isRemoteCall = 0) := by
  have h := terminalLast_worker endUserIP ttbs rid reqs env st
  refine ⟨countP_terminal_of_terminalLast _ h, ?_⟩
  intro l1 a l2 heq ha
  have h2 : l2 = [] := nil_after_terminal l1 a l2 (heq ▸ h) ha
  subst h2
  simp

/-- C1 witness: the single-terminal property instantiated on a concrete
run that starts successfully, polls pending once, and completes. -/
theorem worker_single_terminal_witness :
    (handleAuthSignRequest "1.2.3.4" "" "w1" none
        (WorkerEnv.mk true none
          (RemoteOutcome.success (ServerResponse.mk "tok" "ref" "" "" ""))
          [PollStep.mk false (RemoteOutcome.success (ServerResponse.mk "" "" "pending" "h1" "")),
           PollStep.mk false (RemoteOutcome.success (ServerResponse.mk "" "" "complete" "" "N"))])
        (ConnState.mk ["w1"] [])).2.countP WAction.isTerminal ≤ 1 :=
  (worker_single_terminal "1.2.3.4" "" "w1" none
    (WorkerEnv.mk true none
      (RemoteOutcome.success (ServerResponse.mk "tok" "ref" "" "" ""))
      [PollStep.mk false (RemoteOutcome.success (ServerResponse.mk "" "" "pending" "h1" "")),
       PollStep.mk false (RemoteOutcome.success (ServerResponse.mk "" "" "complete" "" "N"))])
    (ConnState.mk ["w1"] [])).1

end Bankid

